import Mathlib

/-!
Shallow embedding of the notarial-office Django application
(`core/models.py`, `core/forms.py`, `core/views.py`,
`core/templatetags/format_utils.py`) used to check the specification's
claims.  Strings are Lean `String`s, nullable database columns are
`Option String`, dates/times/uuids are opaque `Nat` codes, and the
database is explicit state threaded through each operation.  Python
exceptions (`TypeError`, `ValidationError`, `IntegrityError`, `Http404`)
are modelled with `Except PyErr`.
-/

deriving instance DecidableEq for Except

namespace SistemaProtocolos

/-- Whitespace for Python `str.strip`. -/
def isSpaceChar (c : Char) : Bool :=
  c = ' ' ∨ c = '\t' ∨ c = '\n' ∨ c = '\r' ∨ c = '\x0b' ∨ c = '\x0c'

/-- Python `s.strip()`: remove leading and trailing whitespace. -/
def pyStrip (s : String) : String :=
  String.mk (((s.data.dropWhile isSpaceChar).reverse.dropWhile isSpaceChar).reverse)

/-- Python slice `s[:n]` (code-point based). -/
def strTake (s : String) (n : Nat) : String :=
  String.mk (s.data.take n)

/-- Python slice `s[n:]` (code-point based). -/
def strDrop (s : String) (n : Nat) : String :=
  String.mk (s.data.drop n)

/-- Python exceptions that the modelled code can raise. -/
inductive PyErr where
  | typeError (msg : String)
  | validationError (msg : String)
  | integrityError (msg : String)
  | http404
deriving Repr, DecidableEq

/-- `re.sub(r'\D', '', s)`: keep only ASCII digits, preserving order. -/
def digitsOnly (s : String) : String :=
  String.mk (s.data.filter Char.isDigit)

/-- Python truthiness of an optional string: `None` and `''` are falsy. -/
def truthyOpt : Option String → Bool
  | none => false
  | some s => s ≠ ""

/-- Python `len` applied to an `Optional[str]`: raises `TypeError` on `None`. -/
def pyLen : Option String → Except PyErr Nat
  | none => .error (.typeError ("object of type NoneType has no len"))
  | some s => .ok s.length

/-- Python `s or ''` for an optional string column. -/
def orEmpty : Option String → String
  | none => ""
  | some s => s

/-! ### `core/templatetags/format_utils.py` -/

/-- `format_cpf`: formats an 11-digit CPF as `000.000.000-00`; empty input
gives `''`; any other digit count echoes the input unchanged. -/
def format_cpf (value : String) : String :=
  if value = "" then ""
  else
    let cpf := digitsOnly value
    if cpf.length ≠ 11 then value
    else strTake cpf 3 ++ "." ++ strTake (strDrop cpf 3) 3 ++ "." ++ strTake (strDrop cpf 6) 3
         ++ "-" ++ strDrop cpf 9

/-- `format_cnpj`: formats a 14-digit CNPJ as `00.000.000/0000-00`; empty input
gives `''`; any other digit count echoes the input unchanged. -/
def format_cnpj (value : String) : String :=
  if value = "" then ""
  else
    let cnpj := digitsOnly value
    if cnpj.length ≠ 14 then value
    else strTake cnpj 2 ++ "." ++ strTake (strDrop cnpj 2) 3 ++ "." ++ strTake (strDrop cnpj 5) 3
         ++ "/" ++ strTake (strDrop cnpj 8) 4 ++ "-" ++ strDrop cnpj 12

/-! ### `core/models.py` — Cliente -/

/-- `Cliente.TipoPessoa` choices. -/
inductive TipoPessoa where
  | FISICA
  | JURIDICA
deriving Repr, DecidableEq

/-- A persisted-or-in-memory `Cliente` row. `id` is the primary key. -/
structure Cliente where
  id : Nat
  nome : String
  tipo_pessoa : TipoPessoa
  cpf : Option String
  cnpj : Option String
  telefone : Option String
  email : Option String
  endereco : Option String
deriving Repr, DecidableEq

/-- `Cliente.clean`: cross validation of `tipo_pessoa` against `cpf`/`cnpj`.
Returns the message of the `ValidationError` it raises, if any. -/
def cliente_clean (c : Cliente) : Option String :=
  if c.tipo_pessoa = TipoPessoa.FISICA ∧ ¬ truthyOpt c.cpf then
    some ("CPF é obrigatório para Pessoa Física.")
  else if c.tipo_pessoa = TipoPessoa.FISICA ∧ truthyOpt c.cnpj then
    some ("Pessoa Física não deve ter CNPJ preenchido.")
  else if c.tipo_pessoa = TipoPessoa.JURIDICA ∧ ¬ truthyOpt c.cnpj then
    some ("CNPJ é obrigatório para Pessoa Jurídica.")
  else if c.tipo_pessoa = TipoPessoa.JURIDICA ∧ truthyOpt c.cpf then
    some ("Pessoa Jurídica não deve ter CPF preenchido.")
  else none

/-- The Cliente table: rows plus the next primary key to hand out. -/
structure ClientesDB where
  rows : List Cliente
  nextId : Nat
deriving Repr, DecidableEq

/-- Part of `validate_unique`: some other row carries this row's non-NULL
`cpf` (`NULL`s never conflict). -/
def cpf_conflict (c : Cliente) (rows : List Cliente) : Bool :=
  match c.cpf with
  | some v => rows.any (fun o => o.id ≠ c.id ∧ o.cpf = some v)
  | none => false

/-- Part of `validate_unique`: some other row carries this row's non-NULL
`cnpj`. -/
def cnpj_conflict (c : Cliente) (rows : List Cliente) : Bool :=
  match c.cnpj with
  | some w => rows.any (fun o => o.id ≠ c.id ∧ o.cnpj = some w)
  | none => false

/-- `validate_unique` for the `cpf`/`cnpj` unique columns. -/
def cliente_unique_err (c : Cliente) (rows : List Cliente) : Option String :=
  if cpf_conflict c rows then some ("Cliente com este CPF já existe.")
  else if cnpj_conflict c rows then some ("Cliente com este CNPJ já existe.")
  else none

/-- `Cliente.full_clean` as invoked by the overridden `Cliente.save`:
model `clean` followed by the uniqueness checks. -/
def cliente_full_clean (c : Cliente) (rows : List Cliente) : Option String :=
  match cliente_clean c with
  | some m => some m
  | none => cliente_unique_err c rows

/-- `Cliente.save` for a new instance (INSERT): `full_clean` then append,
assigning the fresh primary key `db.nextId`. -/
def cliente_save_new (c : Cliente) (db : ClientesDB) :
    Except PyErr (Cliente × ClientesDB) :=
  match cliente_full_clean c db.rows with
  | some m => .error (.validationError m)
  | none =>
      .ok (c, { rows := db.rows ++ [c], nextId := db.nextId + 1 })

/-- UPDATE by primary key: replace the row whose `id` matches. -/
def replaceById (c : Cliente) (rows : List Cliente) : List Cliente :=
  rows.map (fun o => if o.id = c.id then c else o)

/-- `Cliente.save` for an already-persisted instance (UPDATE):
`full_clean` then replace the row with the same primary key. -/
def cliente_save_update (c : Cliente) (db : ClientesDB) :
    Except PyErr (Cliente × ClientesDB) :=
  match cliente_full_clean c db.rows with
  | some m => .error (.validationError m)
  | none => .ok (c, { db with rows := replaceById c db.rows })

/-! ### `core/views.py` — helpers of the protocol views -/

/-- `_limpar_documento`: `None` for a falsy input, otherwise digits only. -/
def limpar_documento (valor : String) : Option String :=
  if valor ≠ "" then some (digitsOnly valor) else none

/-- The `defaults` dict built per row: `nome` and `tipo_pessoa` always,
`telefone`/`email`/`endereco` only when the submitted value is non-empty. -/
structure DadosCliente where
  nome : String
  tipo_pessoa : TipoPessoa
  telefone : Option String
  email : Option String
  endereco : Option String
deriving Repr, DecidableEq

/-- Merge the `defaults` dict into an existing row (`update_or_create`,
found case): keys absent from the dict leave the stored value untouched. -/
def aplicar_dados (c : Cliente) (d : DadosCliente) : Cliente :=
  { c with
    nome := d.nome
    tipo_pessoa := d.tipo_pessoa
    telefone := match d.telefone with | some t => some t | none => c.telefone
    email := match d.email with | some t => some t | none => c.email
    endereco := match d.endereco with | some t => some t | none => c.endereco }

/-- Build a fresh `Cliente` instance from the `defaults` dict plus the
lookup keys; unset optional columns default to `NULL`. -/
def cliente_from_dados (id : Nat) (d : DadosCliente) (cpf cnpj : Option String) :
    Cliente :=
  { id := id, nome := d.nome, tipo_pessoa := d.tipo_pessoa,
    cpf := cpf, cnpj := cnpj,
    telefone := d.telefone, email := d.email, endereco := d.endereco }

/-- `Cliente.objects.update_or_create(cpf=k, defaults=dados)`. -/
def update_or_create_cpf (k : String) (d : DadosCliente) (db : ClientesDB) :
    Except PyErr (Cliente × ClientesDB) :=
  match db.rows.find? (fun c => c.cpf = some k) with
  | some c0 => cliente_save_update (aplicar_dados c0 d) db
  | none => cliente_save_new (cliente_from_dados db.nextId d (some k) none) db

/-- `Cliente.objects.update_or_create(cnpj=k, defaults=dados)`. -/
def update_or_create_cnpj (k : String) (d : DadosCliente) (db : ClientesDB) :
    Except PyErr (Cliente × ClientesDB) :=
  match db.rows.find? (fun c => c.cnpj = some k) with
  | some c0 => cliente_save_update (aplicar_dados c0 d) db
  | none => cliente_save_new (cliente_from_dados db.nextId d none (some k)) db

/-- The `if cpf: ... elif cnpj: ... else: ...` upsert at the end of each
row iteration: update-or-create keyed by the applicable document column,
or an unconditional unkeyed create when neither key is truthy. -/
def upsert_cliente (cpf cnpj : Option String) (dados : DadosCliente)
    (db : ClientesDB) : Except PyErr (Cliente × ClientesDB) :=
  if truthyOpt cpf then update_or_create_cpf (orEmpty cpf) dados db
  else if truthyOpt cnpj then update_or_create_cnpj (orEmpty cnpj) dados db
  else cliente_save_new (cliente_from_dados db.nextId dados none none) db

/-- The classification block of the row loop: Python's
`if apenas_cpf or len(doc_limpo) == 11: ... elif len(doc_limpo) == 14: ...
else: ...` (the `or` short-circuits, so `len(None)` raises `TypeError`
only when `apenas_cpf` is false).  Returns `(tipo_pessoa, cpf, cnpj)`. -/
def classificar (apenas_cpf : Bool) (doc_limpo : Option String) :
    Except PyErr (TipoPessoa × Option String × Option String) :=
  if apenas_cpf then
    .ok (TipoPessoa.FISICA,
      (if truthyOpt doc_limpo then doc_limpo.map (fun s => strTake s 11) else none),
      none)
  else
    match pyLen doc_limpo with
    | .error e => .error e
    | .ok n =>
        if n = 11 then
          .ok (TipoPessoa.FISICA, doc_limpo.map (fun s => strTake s 11), none)
        else if n = 14 then
          .ok (TipoPessoa.JURIDICA, none, doc_limpo)
        else
          .ok (TipoPessoa.FISICA,
            (if truthyOpt doc_limpo then doc_limpo else none), none)

/-- One iteration of the row loop of `_processar_pessoas_do_post`.
Returns the appended `Cliente` (or `none` when the row is skipped) and the
updated table.  The source also reads a `{prefixo}_id[]` value per row but
never uses it, so it is not modelled. -/
def processar_linha (apenas_cpf : Bool)
    (doc nomeRaw telefoneRaw emailRaw enderecoRaw : String) (db : ClientesDB) :
    Except PyErr (Option Cliente × ClientesDB) :=
  let doc_limpo := limpar_documento doc
  let nome := pyStrip nomeRaw
  let telefone := pyStrip telefoneRaw
  let email := pyStrip emailRaw
  let endereco := pyStrip enderecoRaw
  if ¬ truthyOpt doc_limpo ∧ nome = "" then .ok (none, db)
  else
    match classificar apenas_cpf doc_limpo with
    | .error e => .error e
    | .ok (tipo_pessoa, cpf, cnpj) =>
        if nome = "" then .ok (none, db)
        else
          let dados : DadosCliente := {
            nome := nome, tipo_pessoa := tipo_pessoa,
            telefone := if telefone ≠ "" then some telefone else none,
            email := if email ≠ "" then some email else none,
            endereco := if endereco ≠ "" then some endereco else none }
          match upsert_cliente cpf cnpj dados db with
          | .error e => .error e
          | .ok (cliente, db1) => .ok (some cliente, db1)

/-- `_processar_pessoas_do_post`: iterate the parallel `POST` arrays in
submission order (indexing past the end of a shorter array yields `''`),
accumulating the clients in order. -/
def processar_pessoas_do_post (apenas_cpf : Bool) :
    List String → List String → List String → List String → List String →
    ClientesDB → Except PyErr (List Cliente × ClientesDB)
  | [], _, _, _, _, db => .ok ([], db)
  | doc :: docs, nomes, telefones, emails, enderecos, db =>
      match processar_linha apenas_cpf doc (nomes.headD "")
          (telefones.headD "") (emails.headD "") (enderecos.headD "") db with
      | .error e => .error e
      | .ok (copt, db1) =>
          match processar_pessoas_do_post apenas_cpf docs nomes.tail
              telefones.tail emails.tail enderecos.tail db1 with
          | .error e => .error e
          | .ok (rest, db2) =>
              match copt with
              | some c => .ok (c :: rest, db2)
              | none => .ok (rest, db2)

/-- `_processar_lista_documentos`: trimmed non-empty checklist items,
order and duplicates preserved as submitted. -/
def processar_lista_documentos (documentos : List String) : List String :=
  (documentos.map pyStrip).filter (fun d => d ≠ "")

/-! ### `core/models.py` — Tabelionato (singleton) -/

/-- A `Tabelionato` (office settings) instance; `pk = none` means not yet
persisted. -/
structure Tabelionato where
  pk : Option Nat
  denominacao : String
  cnpj : String
  endereco : String
  telefone : String
  email : String
  site : Option String
deriving Repr, DecidableEq

/-- `Tabelionato.save`: refuses to insert a second row (`not self.pk and
Tabelionato.objects.exists()`), otherwise inserts or updates by pk. -/
def tabelionato_save (t : Tabelionato) (rows : List Tabelionato) :
    Except PyErr (List Tabelionato) :=
  if t.pk = none ∧ rows ≠ [] then
    .error (.validationError
      ("Apenas um registro de Tabelionato é permitido (Padrão Singleton)."))
  else
    match t.pk with
    | none => .ok (rows ++ [{ t with pk := some rows.length }])
    | some k =>
        if rows.any (fun r => r.pk = some k) then
          .ok (rows.map (fun r => if r.pk = some k then t else r))
        else
          .ok (rows ++ [t])

/-! ### `core/models.py` / `core/forms.py` — User and UserForm -/

/-- `User.Role` choices. -/
inductive Role where
  | MASTER
  | ADMINISTRATIVO
  | ESCREVENTE
deriving Repr, DecidableEq

/-- A custom `User` row; `password` stores the (opaque) hashed password. -/
structure User where
  id : Nat
  username : String
  first_name : String
  last_name : String
  email : String
  role : Role
  is_active : Bool
  is_staff : Bool
  is_superuser : Bool
  password : String
deriving Repr, DecidableEq

/-- `user.set_password(raw)`: stores an opaque hash of the raw password. -/
def set_password (u : User) (raw : String) : User :=
  { u with password := "hashed$" ++ raw }

/-- `UserForm.save` after `super().save(commit=False)`: `user` is the
instance with the form's model fields already applied and `password` is the
cleaned password field (`""` when left blank).  Only updates the password
when one was supplied, then forces `is_staff`/`is_superuser` from the role. -/
def user_form_save (user : User) (password : String) : User :=
  let user := if password ≠ "" then set_password user password else user
  if user.role = Role.MASTER then
    { user with is_staff := true, is_superuser := true }
  else
    { user with is_staff := true, is_superuser := false }

/-! ### `core/models.py` — TipoAto and Protocolo -/

/-- A `TipoAto` row (`tempo_alerta` is an opaque duration code). -/
structure TipoAto where
  id : Nat
  nome : String
  ativo : Bool
  tempo_alerta : Option Nat
deriving Repr, DecidableEq

/-- `Protocolo.TipoProtocolo` choices. -/
inductive TipoProtocolo where
  | ATO_NOTARIAL
  | CERTIDAO
deriving Repr, DecidableEq

/-- `Protocolo.StatusProtocolo` choices. -/
inductive StatusProtocolo where
  | EM_ANDAMENTO
  | ESCRITURA_FINALIZADA
  | CONCLUIDO
  | CANCELADO
deriving Repr, DecidableEq

/-- A `Protocolo` row.  Dates, times and the uuid token are opaque `Nat`
codes; the monetary `deposito_previo` is an opaque `Int`.  The model field
defaults are: `numero_protocolo = ""` (no default declared on the
`CharField`), `hash_acesso_publico = uuid4()`, `tipo = ATO_NOTARIAL`,
`status = EM_ANDAMENTO`, `lista_documentos = []`.  The auto-now creation
timestamp and the ato-notarial-specific note field are not modelled (no
claim touches them). -/
structure Protocolo where
  pk : Option Nat
  numero_protocolo : String
  hash_acesso_publico : Nat
  tipo : TipoProtocolo
  status : StatusProtocolo
  tipo_ato : Nat
  data_agendamento : Option Nat
  horario_agendamento : Option Nat
  deposito_previo : Int
  observacoes : String
  lista_documentos : List String
  criado_por : Option Nat
  responsavel : Option Nat
deriving Repr, DecidableEq

/-- Whole stored state relevant to the protocol views: the user, act-type,
client and protocol tables plus the two many-to-many association tables
(`(protocolo pk, cliente id)` pairs). -/
structure SysDB where
  users : List User
  tipos_ato : List TipoAto
  clientes : ClientesDB
  protocolos : List Protocolo
  nextProtocoloPk : Nat
  protocolo_clientes : List (Nat × Nat)
  protocolo_advogados : List (Nat × Nat)
deriving Repr, DecidableEq

/-- `Protocolo.save`: plain Django save (the model declares no override),
i.e. INSERT for a fresh instance / UPDATE by pk otherwise, subject to the
storage-level unique constraints on `numero_protocolo` and
`hash_acesso_publico`. -/
def protocolo_save (p : Protocolo) (db : SysDB) :
    Except PyErr (Protocolo × SysDB) :=
  match p.pk with
  | none =>
      if db.protocolos.any (fun q => q.numero_protocolo = p.numero_protocolo) then
        .error (.integrityError
          ("duplicate key value violates unique constraint on numero_protocolo"))
      else if db.protocolos.any (fun q => q.hash_acesso_publico = p.hash_acesso_publico) then
        .error (.integrityError
          ("duplicate key value violates unique constraint on hash_acesso_publico"))
      else
        let p1 := { p with pk := some db.nextProtocoloPk }
        .ok (p1, { db with
          protocolos := db.protocolos ++ [p1]
          nextProtocoloPk := db.nextProtocoloPk + 1 })
  | some k =>
      if db.protocolos.any (fun q => q.pk ≠ some k ∧ q.numero_protocolo = p.numero_protocolo) then
        .error (.integrityError
          ("duplicate key value violates unique constraint on numero_protocolo"))
      else if db.protocolos.any
          (fun q => q.pk ≠ some k ∧ q.hash_acesso_publico = p.hash_acesso_publico) then
        .error (.integrityError
          ("duplicate key value violates unique constraint on hash_acesso_publico"))
      else
        .ok (p, { db with
          protocolos := db.protocolos.map (fun q => if q.pk = some k then p else q) })

/-! ### `core/forms.py` — ProtocoloCertidaoForm -/

/-- A raw submitted form field: absent, present-but-unparseable, or a
parsed value. -/
inductive RawField (α : Type) where
  | missing
  | malformed
  | value (a : α)
deriving Repr, DecidableEq

/-- The raw submission bound to `ProtocoloCertidaoForm` (its `Meta.fields`
plus the `responsavel` field the form redefines; `observacoes` is a plain
optional text field that cannot malform). -/
structure ProtocoloCertidaoFormData where
  tipo_ato : RawField Nat
  data_agendamento : RawField Nat
  horario_agendamento : RawField Nat
  responsavel : RawField Nat
  deposito_previo : RawField Int
  observacoes : String
deriving Repr, DecidableEq

/-- The form's `cleaned_data` when validation succeeds. -/
structure ProtocoloCertidaoCleaned where
  tipo_ato : Nat
  data_agendamento : Option Nat
  horario_agendamento : Option Nat
  responsavel : Nat
  deposito_previo : Int
  observacoes : String
deriving Repr, DecidableEq

/-- Clean a required field: missing or malformed ⇒ invalid. -/
def clean_required {α : Type} : RawField α → Option α
  | .value a => some a
  | _ => none

/-- Clean an optional field (`required = False`): missing is fine,
malformed is still invalid. -/
def clean_optional {α : Type} : RawField α → Option (Option α)
  | .missing => some none
  | .malformed => none
  | .value a => some (some a)

/-- `ProtocoloCertidaoForm` validation: `tipo_ato` is required and must be
an active act type (the `__init__` queryset filter), `responsavel` is
required (`required=True` in `__init__`) and must be an active user (its
queryset), `deposito_previo` is required, the scheduling fields and
`observacoes` are optional (`required = False` in `__init__`).
Returns `none` exactly when `form.is_valid()` is false. -/
def protocolo_certidao_form_clean (db : SysDB) (f : ProtocoloCertidaoFormData) :
    Option ProtocoloCertidaoCleaned := do
  let ta ← clean_required f.tipo_ato
  if ¬ db.tipos_ato.any (fun t => t.id = ta ∧ t.ativo) then none
  else do
    let da ← clean_optional f.data_agendamento
    let ha ← clean_optional f.horario_agendamento
    let r ← clean_required f.responsavel
    if ¬ db.users.any (fun u => u.id = r ∧ u.is_active) then none
    else do
      let dep ← clean_required f.deposito_previo
      pure { tipo_ato := ta, data_agendamento := da, horario_agendamento := ha,
             responsavel := r, deposito_previo := dep, observacoes := f.observacoes }

/-- `form.save(commit=False)` on a creation form: a fresh `Protocolo`
instance carrying the cleaned form fields and the model defaults for every
other column (`numero_protocolo` has no default and stays `""`;
`hash_acesso_publico` gets a fresh uuid, passed in as `uuid`). -/
def protocolo_instance_from_form (c : ProtocoloCertidaoCleaned) (uuid : Nat) :
    Protocolo :=
  { pk := none, numero_protocolo := "", hash_acesso_publico := uuid,
    tipo := TipoProtocolo.ATO_NOTARIAL, status := StatusProtocolo.EM_ANDAMENTO,
    tipo_ato := c.tipo_ato, data_agendamento := c.data_agendamento,
    horario_agendamento := c.horario_agendamento,
    deposito_previo := c.deposito_previo, observacoes := c.observacoes,
    lista_documentos := [], criado_por := none,
    responsavel := some c.responsavel }

/-- `form.save(commit=False)` on an edit form bound to `instance = p`:
overwrites exactly the form's model fields on the existing instance. -/
def protocolo_instance_update_from_form (p : Protocolo)
    (c : ProtocoloCertidaoCleaned) : Protocolo :=
  { p with
    tipo_ato := c.tipo_ato
    data_agendamento := c.data_agendamento
    horario_agendamento := c.horario_agendamento
    deposito_previo := c.deposito_previo
    observacoes := c.observacoes
    responsavel := some c.responsavel }

/-! ### `core/views.py` — the certificate-protocol views -/

/-- The POST payload of a certificate-protocol create/update request:
the bound form fields, the parallel per-person arrays for the `cliente`
and `advogado` prefixes, the checklist items, and whether
`tem_advogado` was submitted as `'on'`. -/
structure PostData where
  form : ProtocoloCertidaoFormData
  cliente_documento : List String
  cliente_nome : List String
  cliente_telefone : List String
  cliente_email : List String
  cliente_endereco : List String
  advogado_documento : List String
  advogado_nome : List String
  advogado_telefone : List String
  advogado_email : List String
  advogado_endereco : List String
  documento_item : List String
  tem_advogado : Bool
deriving Repr, DecidableEq

/-- `protocolo.clientes.set(cs)` / `advogados.set(cs)`: replace the
association rows of protocol `pid` with one row per distinct client id. -/
def m2m_set (pid : Nat) (cs : List Cliente) (assoc : List (Nat × Nat)) :
    List (Nat × Nat) :=
  assoc.filter (fun pr => pr.1 ≠ pid) ++
    ((cs.map (fun c => c.id)).eraseDups).map (fun cid => (pid, cid))

/-- `protocolo.advogados.clear()` for protocol `pid`. -/
def m2m_clear (pid : Nat) (assoc : List (Nat × Nat)) : List (Nat × Nat) :=
  assoc.filter (fun pr => pr.1 ≠ pid)

/-- The body of `protocolo_certidao_create` on a POST, before the
`transaction.atomic` wrapper: returns `none` (re-render, no redirect) when
the form is invalid, otherwise the new protocol's pk.  `userId` is
`request.user`, `uuid` the fresh token `uuid4()` produces for the new
instance. -/
def protocolo_certidao_create_body (userId : Nat) (post : PostData)
    (uuid : Nat) (db : SysDB) : Except PyErr (Option Nat × SysDB) :=
  match protocolo_certidao_form_clean db post.form with
  | none => .ok (none, db)
  | some cleaned =>
      let protocolo := { protocolo_instance_from_form cleaned uuid with
        tipo := TipoProtocolo.CERTIDAO
        criado_por := some userId
        responsavel := some userId
        lista_documentos := processar_lista_documentos post.documento_item }
      match protocolo_save protocolo db with
      | .error e => .error e
      | .ok (p1, db1) =>
          let pid := p1.pk.getD 0
          match processar_pessoas_do_post false
              post.cliente_documento post.cliente_nome post.cliente_telefone
              post.cliente_email post.cliente_endereco db1.clientes with
          | .error e => .error e
          | .ok (clientes, cdb1) =>
              let db2 := { db1 with clientes := cdb1 }
              let db3 :=
                if clientes ≠ [] then
                  { db2 with protocolo_clientes := m2m_set pid clientes db2.protocolo_clientes }
                else db2
              if post.tem_advogado then
                match processar_pessoas_do_post true
                    post.advogado_documento post.advogado_nome post.advogado_telefone
                    post.advogado_email post.advogado_endereco db3.clientes with
                | .error e => .error e
                | .ok (advogados, cdb2) =>
                    let db4 := { db3 with clientes := cdb2 }
                    let db5 :=
                      if advogados ≠ [] then
                        { db4 with protocolo_advogados := m2m_set pid advogados db4.protocolo_advogados }
                      else db4
                    .ok (some pid, db5)
              else
                .ok (some pid, db3)

/-- `protocolo_certidao_create` (POST): the body runs inside
`@transaction.atomic`, so an exception anywhere rolls the stored state
back to `db` while the exception propagates. -/
def protocolo_certidao_create (userId : Nat) (post : PostData) (uuid : Nat)
    (db : SysDB) : Except PyErr (Option Nat) × SysDB :=
  match protocolo_certidao_create_body userId post uuid db with
  | .ok (r, db1) => (.ok r, db1)
  | .error e => (.error e, db)

/-- The body of `protocolo_certidao_update` on a POST, before the
`transaction.atomic` wrapper.  `get_object_or_404` filters on the pk and
`tipo=CERTIDAO`.  Unlike creation, the client set is replaced
unconditionally, and an unset `tem_advogado` clears the lawyer set. -/
def protocolo_certidao_update_body (pk : Nat) (post : PostData) (db : SysDB) :
    Except PyErr (Option Nat × SysDB) :=
  match db.protocolos.find?
      (fun p => p.pk = some pk ∧ p.tipo = TipoProtocolo.CERTIDAO) with
  | none => .error PyErr.http404
  | some protocolo0 =>
      match protocolo_certidao_form_clean db post.form with
      | none => .ok (none, db)
      | some cleaned =>
          let protocolo := { protocolo_instance_update_from_form protocolo0 cleaned with
            tipo := TipoProtocolo.CERTIDAO
            lista_documentos := processar_lista_documentos post.documento_item }
          match protocolo_save protocolo db with
          | .error e => .error e
          | .ok (_, db1) =>
              match processar_pessoas_do_post false
                  post.cliente_documento post.cliente_nome post.cliente_telefone
                  post.cliente_email post.cliente_endereco db1.clientes with
              | .error e => .error e
              | .ok (clientes, cdb1) =>
                  let db2 := { db1 with
                    clientes := cdb1
                    protocolo_clientes := m2m_set pk clientes db1.protocolo_clientes }
                  if post.tem_advogado then
                    match processar_pessoas_do_post true
                        post.advogado_documento post.advogado_nome post.advogado_telefone
                        post.advogado_email post.advogado_endereco db2.clientes with
                    | .error e => .error e
                    | .ok (advogados, cdb2) =>
                        .ok (some pk, { db2 with
                          clientes := cdb2
                          protocolo_advogados := m2m_set pk advogados db2.protocolo_advogados })
                  else
                    .ok (some pk, { db2 with
                      protocolo_advogados := m2m_clear pk db2.protocolo_advogados })

/-- `protocolo_certidao_update` (POST) under `@transaction.atomic`. -/
def protocolo_certidao_update (pk : Nat) (post : PostData) (db : SysDB) :
    Except PyErr (Option Nat) × SysDB :=
  match protocolo_certidao_update_body pk post db with
  | .ok (r, db1) => (.ok r, db1)
  | .error e => (.error e, db)

/-! ### `core/views.py` — api_buscar_cliente -/

/-- The JSON object `api_buscar_cliente` responds with. -/
structure BuscaClienteJson where
  found : Bool
  id : Option Nat
  nome : String
  tipo_pessoa : String
  telefone : String
  email : String
  endereco : String
deriving Repr, DecidableEq

/-- Wire value of a `TipoPessoa` choice. -/
def tipo_pessoa_str : TipoPessoa → String
  | TipoPessoa.FISICA => "FISICA"
  | TipoPessoa.JURIDICA => "JURIDICA"

/-- The not-found response literal (`found: False, id: None`, every string
field empty). -/
def busca_not_found : BuscaClienteJson :=
  { found := false, id := none, nome := "", tipo_pessoa := "",
    telefone := "", email := "", endereco := "" }

/-- `api_buscar_cliente` (GET): strip and normalize the `documento` query
parameter, answer not-found when no digits remain, otherwise look up the
first client whose `cpf` or `cnpj` equals the digits and project it with
`or ''` defaults. -/
def api_buscar_cliente (documento : String) (db : ClientesDB) :
    BuscaClienteJson :=
  let documento := pyStrip documento
  let documento_limpo := digitsOnly documento
  if documento_limpo = "" then busca_not_found
  else
    match db.rows.find?
        (fun c => c.cpf = some documento_limpo ∨ c.cnpj = some documento_limpo) with
    | some cliente =>
        { found := true, id := some cliente.id, nome := cliente.nome,
          tipo_pessoa := tipo_pessoa_str cliente.tipo_pessoa,
          telefone := orEmpty cliente.telefone,
          email := orEmpty cliente.email,
          endereco := orEmpty cliente.endereco }
    | none => busca_not_found

/-! ### Concrete fixtures used by the closed theorems and witnesses -/

/-- An active MASTER user, the acting user of the concrete scenarios. -/
def userAna : User :=
  { id := 1, username := "ana", first_name := "Ana", last_name := "Lima",
    email := "ana@tab.br", role := Role.MASTER, is_active := true,
    is_staff := true, is_superuser := true, password := "x" }

/-- A second active user, submitted as the responsible user. -/
def userBia : User :=
  { id := 2, username := "bia", first_name := "Bia", last_name := "Reis",
    email := "bia@tab.br", role := Role.ESCREVENTE, is_active := true,
    is_staff := true, is_superuser := false, password := "y" }

/-- An active act type. -/
def tipoCertidao : TipoAto :=
  { id := 1, nome := "Certidao de Nascimento", ativo := true, tempo_alerta := none }

/-- Base stored state: two users, one active act type, nothing else. -/
def dbBase : SysDB :=
  { users := [userAna, userBia], tipos_ato := [tipoCertidao],
    clientes := { rows := [], nextId := 0 }, protocolos := [],
    nextProtocoloPk := 0, protocolo_clientes := [], protocolo_advogados := [] }

/-- A valid form submission that names user 2 as the responsible user. -/
def formOk : ProtocoloCertidaoFormData :=
  { tipo_ato := RawField.value 1, data_agendamento := RawField.missing,
    horario_agendamento := RawField.missing, responsavel := RawField.value 2,
    deposito_previo := RawField.value 0, observacoes := "" }

/-- A POST carrying `formOk` and no person rows. -/
def postOk : PostData :=
  { form := formOk,
    cliente_documento := [], cliente_nome := [], cliente_telefone := [],
    cliente_email := [], cliente_endereco := [],
    advogado_documento := [], advogado_nome := [], advogado_telefone := [],
    advogado_email := [], advogado_endereco := [],
    documento_item := [], tem_advogado := false }

/-- `postOk` with a malformed schedule date (fails field validation). -/
def postDataRuim : PostData :=
  { postOk with form := { formOk with data_agendamento := RawField.malformed } }

/-- `postOk` plus one client row whose document has no digits. -/
def postDocSemDigitos : PostData :=
  { postOk with cliente_documento := ["abc"], cliente_nome := ["Ana"] }

/-- The client that reconciling `{documento: "111.222.333-44", nome: "Ana"}`
against empty state creates. -/
def anaCliente : Cliente :=
  { id := 0, nome := "Ana", tipo_pessoa := TipoPessoa.FISICA,
    cpf := some "11122233344", cnpj := none,
    telefone := none, email := none, endereco := none }

/-- The client table holding exactly `anaCliente`. -/
def anaDB : ClientesDB := { rows := [anaCliente], nextId := 1 }

/-- A persisted office-settings row. -/
def tabExistente : Tabelionato :=
  { pk := some 0, denominacao := "1o Tabelionato", cnpj := "1", endereco := "Rua A",
    telefone := "1", email := "t@tab.br", site := none }

/-- A not-yet-persisted office-settings instance. -/
def tabNovo : Tabelionato := { tabExistente with pk := none, denominacao := "2o Tabelionato" }

/-- A FISICA client carrying both documents (violates the cross rules). -/
def clienteAmbos : Cliente :=
  { anaCliente with id := 7, cnpj := some "11222333000181" }

/-! ### Invariants of the client table (used for C5) -/

/-- At most one row per distinct document value: two rows (in list order)
never share a non-NULL `cpf`, nor a non-NULL `cnpj`. -/
def docKeysOk (rows : List Cliente) : Prop :=
  rows.Pairwise (fun a b =>
    (a.cpf = b.cpf → a.cpf = none) ∧ (a.cnpj = b.cnpj → a.cnpj = none))

/-- Primary keys are pairwise distinct and below the allocator. -/
def idsOk (db : ClientesDB) : Prop :=
  (db.rows.map (fun c => c.id)).Nodup ∧ ∀ c ∈ db.rows, c.id < db.nextId

/-- Well-formedness of the client table. -/
def clientesInv (db : ClientesDB) : Prop := idsOk db ∧ docKeysOk db.rows

end SistemaProtocolos

namespace SistemaProtocolos

/-! ## Theorems -/

/-- **C1** (refuted at a concrete input; the spec matches the view's own
comment, which the model's `clean` contradicts).  A submitted row with a
non-empty name and a document that normalizes to no digits does make the
call fail: a digit-free document (`"abc"`) reaches the unkeyed
`Cliente.objects.create`, whose `save → full_clean → clean` raises
`ValidationError` because the row is classified FISICA with no CPF; an
empty document string makes `len(None)` raise `TypeError` when
`apenas_cpf` is false, and still raises the `ValidationError` when
`apenas_cpf` is true.  In no case is an unkeyed Client created. -/
theorem c1_unkeyed_creation_always_raises :
    processar_pessoas_do_post false ["abc"] ["Ana"] [] [] [] ⟨[], 0⟩
      = .error (.validationError ("CPF é obrigatório para Pessoa Física.")) ∧
    processar_pessoas_do_post false [""] ["Ana"] [] [] [] ⟨[], 0⟩
      = .error (.typeError ("object of type NoneType has no len")) ∧
    processar_pessoas_do_post true [""] ["Ana"] [] [] [] ⟨[], 0⟩
      = .error (.validationError ("CPF é obrigatório para Pessoa Física.")) := by
  exact ⟨by decide, by decide, by decide⟩

/-- **C2** (refuted at a concrete input; the view's comments `"numero_protocolo
é gerado automaticamente no model"` / `"Número gerado automaticamente aqui"`
contradict the model, which declares no generator).  Persisting the first
certificate protocol succeeds but stores the empty string as its protocol
number — not a non-empty generated number — and persisting a second one
fails with a uniqueness violation on the empty number. -/
theorem c2_numero_protocolo_never_generated :
    (protocolo_certidao_create 1 postOk 77 dbBase).1 = .ok (some 0) ∧
    ((protocolo_certidao_create 1 postOk 77 dbBase).2.protocolos.map
      (fun p => p.numero_protocolo)) = [""] ∧
    (protocolo_certidao_create 1 postOk 78
        (protocolo_certidao_create 1 postOk 77 dbBase).2).1
      = .error (.integrityError
          ("duplicate key value violates unique constraint on numero_protocolo")) := by
  exact ⟨by decide, by decide, by decide⟩

/-- **C6**: through the model save path (`save → full_clean`), persistence
fails with a `ValidationError` whenever both documents are populated, or the
classification is FISICA with a populated `cnpj` or a blank `cpf`, or
JURIDICA with a populated `cpf` or a blank `cnpj`; and any `Cliente`
a save accepts carries exactly the document matching its classification.
Stated for both the INSERT and the UPDATE save path. -/
theorem c6_cliente_document_invariant (c : Cliente) (db : ClientesDB) :
    ((truthyOpt c.cpf ∧ truthyOpt c.cnpj) ∨
     (c.tipo_pessoa = TipoPessoa.FISICA ∧ (truthyOpt c.cnpj ∨ ¬ truthyOpt c.cpf)) ∨
     (c.tipo_pessoa = TipoPessoa.JURIDICA ∧ (truthyOpt c.cpf ∨ ¬ truthyOpt c.cnpj)) →
      (∃ m, cliente_save_new c db = .error (.validationError m)) ∧
      (∃ m, cliente_save_update c db = .error (.validationError m))) ∧
    (∀ out, cliente_save_new c db = .ok out ∨ cliente_save_update c db = .ok out →
      (c.tipo_pessoa = TipoPessoa.FISICA → truthyOpt c.cpf ∧ ¬ truthyOpt c.cnpj) ∧
      (c.tipo_pessoa = TipoPessoa.JURIDICA → truthyOpt c.cnpj ∧ ¬ truthyOpt c.cpf)) := by
  have hclean : (cliente_clean c = none) →
      (c.tipo_pessoa = TipoPessoa.FISICA → truthyOpt c.cpf ∧ ¬ truthyOpt c.cnpj) ∧
      (c.tipo_pessoa = TipoPessoa.JURIDICA → truthyOpt c.cnpj ∧ ¬ truthyOpt c.cpf) := by
    unfold cliente_clean
    cases c.tipo_pessoa <;> cases hcpf : truthyOpt c.cpf <;>
      cases hcnpj : truthyOpt c.cnpj <;> simp_all
  constructor
  · intro hbad
    have hm : ∃ m, cliente_clean c = some m := by
      unfold cliente_clean
      cases htp : c.tipo_pessoa <;> cases hcpf : truthyOpt c.cpf <;>
        cases hcnpj : truthyOpt c.cnpj <;> simp_all
    obtain ⟨m, hm⟩ := hm
    have hfc : cliente_full_clean c db.rows = some m := by
      unfold cliente_full_clean; rw [hm]
    constructor
    · exact ⟨m, by unfold cliente_save_new; rw [hfc]⟩
    · exact ⟨m, by unfold cliente_save_update; rw [hfc]⟩
  · intro out hout
    have hfc : cliente_full_clean c db.rows = none := by
      rcases hout with h | h
      · unfold cliente_save_new at h
        cases hfc : cliente_full_clean c db.rows with
        | some m => rw [hfc] at h; cases h
        | none => rfl
      · unfold cliente_save_update at h
        cases hfc : cliente_full_clean c db.rows with
        | some m => rw [hfc] at h; cases h
        | none => rfl
    have : cliente_clean c = none := by
      unfold cliente_full_clean at hfc
      cases hc : cliente_clean c with
      | some m => rw [hc] at hfc; cases hfc
      | none => rfl
    exact hclean this

/-- Witness for C6 at concrete inputs: a FISICA client with both documents
populated is rejected by both save paths, and a well-formed FISICA client
is accepted with exactly its CPF populated. -/
theorem c6_witness :
    ((∃ m, cliente_save_new clienteAmbos anaDB = .error (.validationError m)) ∧
     (∃ m, cliente_save_update clienteAmbos anaDB = .error (.validationError m))) ∧
    ((anaCliente.tipo_pessoa = TipoPessoa.FISICA →
        truthyOpt anaCliente.cpf ∧ ¬ truthyOpt anaCliente.cnpj) ∧
     (anaCliente.tipo_pessoa = TipoPessoa.JURIDICA →
        truthyOpt anaCliente.cnpj ∧ ¬ truthyOpt anaCliente.cpf)) := by
  constructor
  · exact (c6_cliente_document_invariant clienteAmbos anaDB).1
      (Or.inl (by decide))
  · exact (c6_cliente_document_invariant anaCliente { rows := [], nextId := 0 }).2
      ⟨anaCliente, { rows := [anaCliente], nextId := 1 }⟩ (Or.inl (by decide))

/-- **C7**: with at least one `Tabelionato` row stored, saving a
not-yet-persisted instance raises the singleton `ValidationError` (and
returns no new table), while saving the already-persisted instance
succeeds. -/
theorem c7_tabelionato_singleton (t : Tabelionato) (rows : List Tabelionato)
    (hrows : rows ≠ []) :
    (t.pk = none → tabelionato_save t rows = .error (.validationError
      ("Apenas um registro de Tabelionato é permitido (Padrão Singleton)."))) ∧
    (∀ k, t.pk = some k → (∃ r ∈ rows, r.pk = some k) →
      tabelionato_save t rows
        = .ok (rows.map (fun r => if r.pk = some k then t else r))) := by
  constructor
  · intro hpk
    unfold tabelionato_save
    rw [if_pos ⟨hpk, hrows⟩]
  · intro k hpk ⟨r, hr, hrk⟩
    unfold tabelionato_save
    rw [if_neg (by simp [hpk]), hpk]
    have hany : (rows.any fun r => decide (r.pk = some k)) = true :=
      List.any_eq_true.mpr ⟨r, hr, by simp [hrk]⟩
    simp [hany]

/-- Witness for C7: with one row stored, creating a second instance fails
and re-saving the stored instance succeeds. -/
theorem c7_witness :
    tabelionato_save tabNovo [tabExistente] = .error (.validationError
      ("Apenas um registro de Tabelionato é permitido (Padrão Singleton).")) ∧
    tabelionato_save tabExistente [tabExistente] = .ok [tabExistente] := by
  constructor
  · exact (c7_tabelionato_singleton tabNovo [tabExistente] (by decide)).1 (by decide)
  · have h := (c7_tabelionato_singleton tabExistente [tabExistente] (by decide)).2
      0 (by decide) ⟨tabExistente, by decide, by decide⟩
    simpa using h

/-- **C8**: when the normalized document is empty, or no stored client's
`cpf`/`cnpj` equals it, the lookup responds with exactly
`found: false, id: null` and every string field empty; when a match is
found the response has `found: true` and empty strings (never null) for
any absent `telefone`/`email`/`endereco`. -/
theorem c8_api_buscar_cliente (documento : String) (db : ClientesDB) :
    ((digitsOnly (pyStrip documento) = "" ∨
      ∀ c ∈ db.rows, c.cpf ≠ some (digitsOnly (pyStrip documento)) ∧
        c.cnpj ≠ some (digitsOnly (pyStrip documento))) →
      api_buscar_cliente documento db =
        { found := false, id := none, nome := "", tipo_pessoa := "",
          telefone := "", email := "", endereco := "" }) ∧
    (∀ cliente, digitsOnly (pyStrip documento) ≠ "" →
      db.rows.find? (fun c => c.cpf = some (digitsOnly (pyStrip documento)) ∨
        c.cnpj = some (digitsOnly (pyStrip documento))) = some cliente →
      (api_buscar_cliente documento db).found = true ∧
      (api_buscar_cliente documento db).id = some cliente.id ∧
      (cliente.telefone = none ∨ cliente.telefone = some "" →
        (api_buscar_cliente documento db).telefone = "") ∧
      (cliente.email = none ∨ cliente.email = some "" →
        (api_buscar_cliente documento db).email = "") ∧
      (cliente.endereco = none ∨ cliente.endereco = some "" →
        (api_buscar_cliente documento db).endereco = "")) := by
  constructor
  · intro h
    unfold api_buscar_cliente
    rcases h with h | h
    · rw [if_pos h]; rfl
    · by_cases hd : digitsOnly (pyStrip documento) = ""
      · rw [if_pos hd]; rfl
      · rw [if_neg hd]
        have : db.rows.find? (fun c => c.cpf = some (digitsOnly (pyStrip documento)) ∨
            c.cnpj = some (digitsOnly (pyStrip documento))) = none := by
          rw [List.find?_eq_none]
          intro c hc
          have := h c hc
          simp only [decide_eq_true_eq]
          push_neg
          exact this
        rw [this]
        rfl
  · intro cliente hd hfind
    unfold api_buscar_cliente
    rw [if_neg hd, hfind]
    refine ⟨rfl, rfl, ?_, ?_, ?_⟩ <;>
      rintro (h | h) <;> simp [h, orEmpty]

/-- Witness for C8: the empty document and a miss both give the exact
not-found object; a hit with absent optional fields gives empty strings. -/
theorem c8_witness :
    api_buscar_cliente "" anaDB =
      { found := false, id := none, nome := "", tipo_pessoa := "",
        telefone := "", email := "", endereco := "" } ∧
    api_buscar_cliente "999.999.999-99" anaDB =
      { found := false, id := none, nome := "", tipo_pessoa := "",
        telefone := "", email := "", endereco := "" } ∧
    ((api_buscar_cliente "111.222.333-44" anaDB).found = true ∧
     (api_buscar_cliente "111.222.333-44" anaDB).telefone = "") := by
  refine ⟨?_, ?_, ?_, ?_⟩
  · exact (c8_api_buscar_cliente "" anaDB).1 (Or.inl (by decide))
  · exact (c8_api_buscar_cliente "999.999.999-99" anaDB).1 (Or.inr (by decide))
  · exact ((c8_api_buscar_cliente "111.222.333-44" anaDB).2 anaCliente
      (by decide) (by decide)).1
  · exact ((c8_api_buscar_cliente "111.222.333-44" anaDB).2 anaCliente
      (by decide) (by decide)).2.2.1 (Or.inl (by decide))

/-- **C9**: the formatters produce the exact dotted forms at the conforming
lengths, and echo any non-empty input unchanged when its digits-only form
has a non-conforming length. -/
theorem c9_formatters_exact_and_identity :
    format_cpf "12345678900" = "123.456.789-00" ∧
    format_cnpj "12345678000199" = "12.345.678/0001-99" ∧
    (∀ s, s ≠ "" → (digitsOnly s).length ≠ 11 → format_cpf s = s) ∧
    (∀ s, s ≠ "" → (digitsOnly s).length ≠ 14 → format_cnpj s = s) := by
  refine ⟨by decide, by decide, ?_, ?_⟩
  · intro s hs hlen
    unfold format_cpf
    rw [if_neg hs, if_pos hlen]
  · intro s hs hlen
    unfold format_cnpj
    rw [if_neg hs, if_pos hlen]

/-- Witness for C9's identity clauses at `"123"`. -/
theorem c9_witness : format_cpf "123" = "123" ∧ format_cnpj "123" = "123" := by
  constructor
  · exact c9_formatters_exact_and_identity.2.2.1 "123" (by decide) (by decide)
  · exact c9_formatters_exact_and_identity.2.2.2 "123" (by decide) (by decide)

/-! ### Helper lemmas for the reconciler invariant (C5) -/

/-- Unpacking `cpf_conflict = false`. -/
theorem cpf_conflict_false (c : Cliente) (rows : List Cliente)
    (h : cpf_conflict c rows = false) (v : String) (hv : c.cpf = some v)
    (o : Cliente) (ho : o ∈ rows) (hoid : o.id ≠ c.id) : o.cpf ≠ some v := by
  intro hocpf
  unfold cpf_conflict at h
  simp only [hv] at h
  rw [List.any_eq_false] at h
  exact absurd (by simp [hoid, hocpf]) (h o ho)

/-- Unpacking `cnpj_conflict = false`. -/
theorem cnpj_conflict_false (c : Cliente) (rows : List Cliente)
    (h : cnpj_conflict c rows = false) (w : String) (hw : c.cnpj = some w)
    (o : Cliente) (ho : o ∈ rows) (hoid : o.id ≠ c.id) : o.cnpj ≠ some w := by
  intro hocnpj
  unfold cnpj_conflict at h
  simp only [hw] at h
  rw [List.any_eq_false] at h
  exact absurd (by simp [hoid, hocnpj]) (h o ho)

/-- A `full_clean` that passes implies both uniqueness checks pass. -/
theorem full_clean_unique (c : Cliente) (rows : List Cliente)
    (h : cliente_full_clean c rows = none) :
    cpf_conflict c rows = false ∧ cnpj_conflict c rows = false := by
  unfold cliente_full_clean at h
  cases hc : cliente_clean c with
  | some m => rw [hc] at h; cases h
  | none =>
    rw [hc] at h
    unfold cliente_unique_err at h
    by_cases h1 : cpf_conflict c rows = true
    · rw [if_pos h1] at h; cases h
    · by_cases h2 : cnpj_conflict c rows = true
      · rw [if_neg h1, if_pos h2] at h; cases h
      · exact ⟨Bool.not_eq_true _ ▸ (by simpa using h1),
               Bool.not_eq_true _ ▸ (by simpa using h2)⟩

/-- An INSERT through `Cliente.save` preserves the table invariant when
the new row carries the fresh primary key. -/
theorem cliente_save_new_inv (c : Cliente) (db : ClientesDB)
    (out : Cliente × ClientesDB) (hinv : clientesInv db) (hid : c.id = db.nextId)
    (h : cliente_save_new c db = .ok out) : clientesInv out.2 := by
  obtain ⟨⟨hnodup, hbound⟩, hkeys⟩ := hinv
  unfold cliente_save_new at h
  cases hfc : cliente_full_clean c db.rows with
  | some m => rw [hfc] at h; cases h
  | none =>
    rw [hfc] at h
    have hout : out.2 = ⟨db.rows ++ [c], db.nextId + 1⟩ := by
      cases h; rfl
    obtain ⟨hcpfok, hcnpjok⟩ := full_clean_unique c db.rows hfc
    have hfresh : ∀ o ∈ db.rows, o.id ≠ c.id := by
      intro o ho
      have := hbound o ho
      omega
    rw [hout]
    refine ⟨⟨?_, ?_⟩, ?_⟩
    · show ((db.rows ++ [c]).map (fun x => x.id)).Nodup
      rw [List.map_append]
      refine List.Nodup.append hnodup (by simp) ?_
      intro a ha hb
      simp only [List.map_cons, List.map_nil, List.mem_singleton] at hb
      subst hb
      obtain ⟨o, ho, hoid⟩ := List.mem_map.mp ha
      exact hfresh o ho hoid
    · intro x hx
      rcases List.mem_append.mp hx with hx | hx
      · have := hbound x hx
        show x.id < db.nextId + 1
        omega
      · rw [List.mem_singleton] at hx
        subst hx
        show x.id < db.nextId + 1
        omega
    · show docKeysOk (db.rows ++ [c])
      unfold docKeysOk at hkeys ⊢
      rw [List.pairwise_append]
      refine ⟨hkeys, by simp, ?_⟩
      intro a ha b hb
      rw [List.mem_singleton] at hb
      rw [hb]
      constructor
      · intro heq
        cases hcpf : c.cpf with
        | none => rw [heq, hcpf]
        | some v =>
          exact absurd (heq.trans hcpf)
            (cpf_conflict_false c db.rows hcpfok v hcpf a ha (hfresh a ha))
      · intro heq
        cases hcnpj : c.cnpj with
        | none => rw [heq, hcnpj]
        | some w =>
          exact absurd (heq.trans hcnpj)
            (cnpj_conflict_false c db.rows hcnpjok w hcnpj a ha (hfresh a ha))

/-- An UPDATE through `Cliente.save` of a merged existing row preserves
the table invariant (the merge never touches the key columns). -/
theorem cliente_save_update_inv (c0 : Cliente) (d : DadosCliente) (db : ClientesDB)
    (out : Cliente × ClientesDB) (hinv : clientesInv db) (h0 : c0 ∈ db.rows)
    (h : cliente_save_update (aplicar_dados c0 d) db = .ok out) :
    clientesInv out.2 := by
  obtain ⟨⟨hnodup, hbound⟩, hkeys⟩ := hinv
  unfold cliente_save_update at h
  cases hfc : cliente_full_clean (aplicar_dados c0 d) db.rows with
  | some m => rw [hfc] at h; cases h
  | none =>
    rw [hfc] at h
    have hout : out.2 = ⟨replaceById (aplicar_dados c0 d) db.rows, db.nextId⟩ := by
      cases h; rfl
    have hidkeep : ∀ o : Cliente,
        (if o.id = (aplicar_dados c0 d).id then aplicar_dados c0 d else o).id = o.id := by
      intro o
      by_cases hcase : o.id = (aplicar_dados c0 d).id
      · rw [if_pos hcase, hcase]
      · rw [if_neg hcase]
    have hmapid : (replaceById (aplicar_dados c0 d) db.rows).map (fun x => x.id)
        = db.rows.map (fun x => x.id) := by
      unfold replaceById
      rw [List.map_map]
      exact List.map_congr_left (fun o _ => hidkeep o)
    have hmemkeys : ∀ o ∈ db.rows,
        (if o.id = (aplicar_dados c0 d).id then aplicar_dados c0 d else o).cpf = o.cpf ∧
        (if o.id = (aplicar_dados c0 d).id then aplicar_dados c0 d else o).cnpj = o.cnpj := by
      intro o ho
      by_cases hcase : o.id = (aplicar_dados c0 d).id
      · have hoeq : o = c0 := List.inj_on_of_nodup_map hnodup ho h0 hcase
        rw [if_pos hcase, hoeq]
        exact ⟨rfl, rfl⟩
      · rw [if_neg hcase]
        exact ⟨rfl, rfl⟩
    rw [hout]
    refine ⟨⟨?_, ?_⟩, ?_⟩
    · show ((replaceById (aplicar_dados c0 d) db.rows).map (fun x => x.id)).Nodup
      rw [hmapid]
      exact hnodup
    · intro x hx
      unfold replaceById at hx
      obtain ⟨o, ho, hrepl⟩ := List.mem_map.mp hx
      have : x.id = o.id := by rw [← hrepl]; exact hidkeep o
      have := hbound o ho
      show x.id < db.nextId
      omega
    · show docKeysOk (replaceById (aplicar_dados c0 d) db.rows)
      unfold docKeysOk at hkeys ⊢
      unfold replaceById
      rw [List.pairwise_map]
      refine hkeys.imp_of_mem ?_
      intro a b ha hb hab
      obtain ⟨ha1, ha2⟩ := hmemkeys a ha
      obtain ⟨hb1, hb2⟩ := hmemkeys b hb
      rw [ha1, ha2, hb1, hb2]
      exact hab

/-- The per-row upsert preserves the table invariant. -/
theorem upsert_cliente_inv (cpf cnpj : Option String) (d : DadosCliente)
    (db : ClientesDB) (out : Cliente × ClientesDB) (hinv : clientesInv db)
    (h : upsert_cliente cpf cnpj d db = .ok out) : clientesInv out.2 := by
  unfold upsert_cliente at h
  by_cases h1 : truthyOpt cpf = true
  · rw [if_pos h1] at h
    unfold update_or_create_cpf at h
    cases hfind : db.rows.find? (fun c => c.cpf = some (orEmpty cpf)) with
    | some c0 =>
        rw [hfind] at h
        exact cliente_save_update_inv c0 d db out hinv
          (List.mem_of_find?_eq_some hfind) h
    | none =>
        rw [hfind] at h
        exact cliente_save_new_inv _ db out hinv rfl h
  · rw [if_neg h1] at h
    by_cases h2 : truthyOpt cnpj = true
    · rw [if_pos h2] at h
      unfold update_or_create_cnpj at h
      cases hfind : db.rows.find? (fun c => c.cnpj = some (orEmpty cnpj)) with
      | some c0 =>
          rw [hfind] at h
          exact cliente_save_update_inv c0 d db out hinv
            (List.mem_of_find?_eq_some hfind) h
      | none =>
          rw [hfind] at h
          exact cliente_save_new_inv _ db out hinv rfl h
    · rw [if_neg h2] at h
      exact cliente_save_new_inv _ db out hinv rfl h

/-- Each row iteration preserves the table invariant. -/
theorem processar_linha_inv (apenas_cpf : Bool) (doc n t e a : String)
    (db : ClientesDB) (out : Option Cliente × ClientesDB) (hinv : clientesInv db)
    (h : processar_linha apenas_cpf doc n t e a db = .ok out) :
    clientesInv out.2 := by
  unfold processar_linha at h
  dsimp only at h
  split at h
  · cases h; exact hinv
  · split at h
    · cases h
    · split at h
      · cases h; exact hinv
      · split at h
        · cases h
        · next cliente db1 hup =>
            cases h
            exact upsert_cliente_inv _ _ _ db _ hinv hup

/-- The whole reconciliation pass preserves the table invariant. -/
theorem processar_pessoas_do_post_inv (apenas_cpf : Bool)
    (docs nomes telefones emails enderecos : List String) (db : ClientesDB)
    (out : List Cliente × ClientesDB) (hinv : clientesInv db)
    (h : processar_pessoas_do_post apenas_cpf docs nomes telefones emails
          enderecos db = .ok out) : clientesInv out.2 := by
  induction docs generalizing nomes telefones emails enderecos db out with
  | nil =>
      unfold processar_pessoas_do_post at h
      cases h
      exact hinv
  | cons doc docs ih =>
      unfold processar_pessoas_do_post at h
      split at h
      · cases h
      · next copt db1 hlinha =>
          have hinv1 := processar_linha_inv apenas_cpf doc _ _ _ _ db (copt, db1)
            hinv hlinha
          split at h
          · cases h
          · next rest db2 hrest =>
              have hinv2 := ih _ _ _ _ db1 (rest, db2) hinv1 hrest
              split at h <;> cases h <;> exact hinv2

/-- **C5**: the Person Reconciler is an idempotent upsert keyed by the
normalized document.  Concretely, the single-row payload
`{documento: "111.222.333-44", nome: "Ana"}` applied twice from empty
state stores exactly one client, the second call changing nothing; and in
general any call, run on a well-formed table, returns a well-formed table
— in particular one with at most one client per distinct stored document
(`docKeysOk`). -/
theorem c5_reconciler_idempotent_upsert :
    (processar_pessoas_do_post false ["111.222.333-44"] ["Ana"] [] [] [] ⟨[], 0⟩
        = .ok ([anaCliente], anaDB) ∧
     processar_pessoas_do_post false ["111.222.333-44"] ["Ana"] [] [] [] anaDB
        = .ok ([anaCliente], anaDB) ∧
     anaDB.rows.length = 1) ∧
    (∀ (apenas_cpf : Bool) (docs nomes telefones emails enderecos : List String)
       (db : ClientesDB) (out : List Cliente × ClientesDB),
       clientesInv db →
       processar_pessoas_do_post apenas_cpf docs nomes telefones emails
         enderecos db = .ok out →
       docKeysOk out.2.rows ∧ clientesInv out.2) := by
  constructor
  · exact ⟨by decide, by decide, by decide⟩
  · intro apenas_cpf docs nomes telefones emails enderecos db out hinv h
    have := processar_pessoas_do_post_inv apenas_cpf docs nomes telefones
      emails enderecos db out hinv h
    exact ⟨this.2, this⟩

/-- Witness for C5's general clause, instantiated at the concrete
single-row call from empty state. -/
theorem c5_witness :
    docKeysOk anaDB.rows ∧ clientesInv anaDB := by
  have h := c5_reconciler_idempotent_upsert.2 false ["111.222.333-44"] ["Ana"]
    [] [] [] ⟨[], 0⟩ ([anaCliente], anaDB)
    (by constructor
        · constructor
          · simp [idsOk]
          · intro c hc; cases hc
        · exact List.Pairwise.nil)
    (by decide)
  exact h

/-! ### Helper lemma for the create view (C3) -/

/-- A successful INSERT through `protocolo_save` assigns the fresh pk and
appends exactly the saved row. -/
theorem protocolo_save_new (p : Protocolo) (db : SysDB)
    (out : Protocolo × SysDB) (hpk : p.pk = none)
    (h : protocolo_save p db = .ok out) :
    out.1 = { p with pk := some db.nextProtocoloPk } ∧
    out.2.protocolos = db.protocolos ++ [{ p with pk := some db.nextProtocoloPk }] := by
  unfold protocolo_save at h
  simp only [hpk] at h
  split at h
  · cases h
  · split at h
    · cases h
    · cases h
      exact ⟨rfl, rfl⟩

/-- **C3 counterexample**: with acting user 1, a valid submission that
names user 2 as the responsible user (the form cleans it to 2), the
create view persists the protocol with responsible user 1 — the submitted
choice is overwritten, not honored. -/
theorem c3_counterexample_responsavel_overwritten :
    (protocolo_certidao_form_clean dbBase postOk.form).map
        (fun c => c.responsavel) = some 2 ∧
    (protocolo_certidao_create 1 postOk 77 dbBase).1 = .ok (some 0) ∧
    ((protocolo_certidao_create 1 postOk 77 dbBase).2.protocolos.map
        (fun p => p.responsavel)) = [some 1] ∧
    (2 : Nat) ≠ 1 := by
  exact ⟨by decide, by decide, by decide, by decide⟩

/-- **C3 amended**: for every successful certificate-protocol creation,
the persisted protocol has type CERTIDAO, creator = acting user, and
responsible user = acting user unconditionally — a submitted different
responsible user is overwritten by the view, not honored. -/
theorem c3_create_assigns_fields (userId : Nat) (post : PostData) (uuid : Nat)
    (db : SysDB) (pid : Nat)
    (h : (protocolo_certidao_create userId post uuid db).1 = .ok (some pid)) :
    ∃ p ∈ (protocolo_certidao_create userId post uuid db).2.protocolos,
      p.pk = some pid ∧ p.tipo = TipoProtocolo.CERTIDAO ∧
      p.criado_por = some userId ∧ p.responsavel = some userId := by
  unfold protocolo_certidao_create at h ⊢
  cases hb : protocolo_certidao_create_body userId post uuid db with
  | error e => rw [hb] at h; simp at h
  | ok val =>
    obtain ⟨r, db1⟩ := val
    rw [hb] at h
    dsimp only at h
    injection h with h
    subst h
    unfold protocolo_certidao_create_body at hb
    dsimp only at hb
    split at hb
    · simp at hb
    · next cleaned hclean =>
      split at hb
      · cases hb
      · next p1 db1a hsave =>
        obtain ⟨hp1, hdb1a⟩ := protocolo_save_new _ db (p1, db1a) rfl hsave
        simp only at hp1 hdb1a
        have hmem : p1 ∈ db1a.protocolos := by
          rw [hdb1a, hp1]
          exact List.mem_append_right _ (by simp)
        have hfields : p1.pk = some (p1.pk.getD 0) ∧
            p1.tipo = TipoProtocolo.CERTIDAO ∧
            p1.criado_por = some userId ∧ p1.responsavel = some userId := by
          rw [hp1]
          exact ⟨rfl, rfl, rfl, rfl⟩
        split at hb
        · cases hb
        · next clientes cdb1 hcli =>
          split at hb
          · split at hb
            · cases hb
            · next advogados cdb2 hadv =>
              simp only [Except.ok.injEq, Prod.mk.injEq, Option.some.injEq] at hb
              obtain ⟨hpid, hdb⟩ := hb
              subst hpid
              subst hdb
              refine ⟨p1, ?_, hfields⟩
              by_cases hadv2 : advogados ≠ []
              · rw [if_pos hadv2]
                by_cases hcli2 : clientes ≠ []
                · rw [if_pos hcli2]; exact hmem
                · rw [if_neg hcli2]; exact hmem
              · rw [if_neg hadv2]
                by_cases hcli2 : clientes ≠ []
                · rw [if_pos hcli2]; exact hmem
                · rw [if_neg hcli2]; exact hmem
          · simp only [Except.ok.injEq, Prod.mk.injEq, Option.some.injEq] at hb
            obtain ⟨hpid, hdb⟩ := hb
            subst hpid
            subst hdb
            refine ⟨p1, ?_, hfields⟩
            by_cases hcli2 : clientes ≠ []
            · rw [if_pos hcli2]; exact hmem
            · rw [if_neg hcli2]; exact hmem

/-- Witness for C3's amended statement at the concrete successful
creation. -/
theorem c3_witness :
    ∃ p ∈ (protocolo_certidao_create 1 postOk 77 dbBase).2.protocolos,
      p.pk = some 0 ∧ p.tipo = TipoProtocolo.CERTIDAO ∧
      p.criado_por = some 1 ∧ p.responsavel = some 1 :=
  c3_create_assigns_fields 1 postOk 77 dbBase 0 (by decide)

/-- **C4**: a certificate-protocol create or update request whose form
validation fails performs no write at all (the returned state is the input
state, with no exception), and any exception the body raises after
validation reaches the `transaction.atomic` boundary, which restores the
input state unchanged. -/
theorem c4_validation_aborts_and_atomic_rolls_back :
    (∀ (userId : Nat) (post : PostData) (uuid : Nat) (db : SysDB),
      protocolo_certidao_form_clean db post.form = none →
      protocolo_certidao_create userId post uuid db = (.ok none, db)) ∧
    (∀ (userId : Nat) (post : PostData) (uuid : Nat) (db : SysDB) (e : PyErr),
      protocolo_certidao_create_body userId post uuid db = .error e →
      protocolo_certidao_create userId post uuid db = (.error e, db)) ∧
    (∀ (pk : Nat) (post : PostData) (db : SysDB) (p0 : Protocolo),
      db.protocolos.find?
          (fun p => p.pk = some pk ∧ p.tipo = TipoProtocolo.CERTIDAO) = some p0 →
      protocolo_certidao_form_clean db post.form = none →
      protocolo_certidao_update pk post db = (.ok none, db)) ∧
    (∀ (pk : Nat) (post : PostData) (db : SysDB) (e : PyErr),
      protocolo_certidao_update_body pk post db = .error e →
      protocolo_certidao_update pk post db = (.error e, db)) := by
  refine ⟨?_, ?_, ?_, ?_⟩
  · intro userId post uuid db hform
    unfold protocolo_certidao_create protocolo_certidao_create_body
    rw [hform]
  · intro userId post uuid db e hbody
    unfold protocolo_certidao_create
    rw [hbody]
  · intro pk post db p0 hfind hform
    unfold protocolo_certidao_update protocolo_certidao_update_body
    rw [hfind, hform]
  · intro pk post db e hbody
    unfold protocolo_certidao_update
    rw [hbody]

/-- Witness for C4 at concrete inputs: a malformed schedule date on create
and on update leaves stored state untouched, and a mid-sequence
`ValidationError` (raised while reconciling a client row after the
protocol row was already inserted) rolls everything back. -/
theorem c4_witness :
    protocolo_certidao_create 1 postDataRuim 77 dbBase = (.ok none, dbBase) ∧
    protocolo_certidao_create 1 postDocSemDigitos 77 dbBase
      = (.error (.validationError ("CPF é obrigatório para Pessoa Física.")), dbBase) ∧
    protocolo_certidao_update 0 postDataRuim
        (protocolo_certidao_create 1 postOk 77 dbBase).2
      = (.ok none, (protocolo_certidao_create 1 postOk 77 dbBase).2) ∧
    protocolo_certidao_update 0 postDocSemDigitos
        (protocolo_certidao_create 1 postOk 77 dbBase).2
      = (.error (.validationError ("CPF é obrigatório para Pessoa Física.")),
         (protocolo_certidao_create 1 postOk 77 dbBase).2) := by
  refine ⟨?_, ?_, ?_, ?_⟩
  · exact c4_validation_aborts_and_atomic_rolls_back.1 1 postDataRuim 77 dbBase
      (by decide)
  · exact c4_validation_aborts_and_atomic_rolls_back.2.1 1 postDocSemDigitos 77
      dbBase (.validationError ("CPF é obrigatório para Pessoa Física."))
      (by decide)
  · exact c4_validation_aborts_and_atomic_rolls_back.2.2.1 0 postDataRuim
      (protocolo_certidao_create 1 postOk 77 dbBase).2
      { protocolo_instance_from_form
          { tipo_ato := 1, data_agendamento := none, horario_agendamento := none,
            responsavel := 2, deposito_previo := 0, observacoes := "" } 77 with
        tipo := TipoProtocolo.CERTIDAO, criado_por := some 1,
        responsavel := some 1, pk := some 0 }
      (by decide) (by decide)
  · exact c4_validation_aborts_and_atomic_rolls_back.2.2.2 0 postDocSemDigitos
      (protocolo_certidao_create 1 postOk 77 dbBase).2
      (.validationError ("CPF é obrigatório para Pessoa Física.")) (by decide)

/-- **C10**: every user the admin `UserForm.save` produces has
`is_staff = True` whatever the role, and `is_superuser = True` exactly when
the role is MASTER. -/
theorem c10_user_form_staff_superuser (user : User) (password : String) :
    (user_form_save user password).is_staff = true ∧
    ((user_form_save user password).is_superuser = true ↔ user.role = Role.MASTER) := by
  unfold user_form_save set_password
  by_cases hp : password ≠ "" <;> cases hr : user.role <;> simp_all

end SistemaProtocolos
